import Mathlib

/-!
Shallow embedding of the TA_SCRIPTS result-normalization scripts:
`android_scripts/android_settings_script.py` (Instrumentation-Log Adapter) and
`web_scripts/playwright_web.py` (Structured-Report Adapter).

Strings are processed as `List Char`; Python regular-expression scraping is
embedded as explicit character-level scanners with the same matching
semantics (leftmost, non-overlapping `findall`, lazy groups, lookaheads).
Fallible Python code (uncaught exceptions such as `ValueError` from
`strptime`, `IndexError` from `[0]`, `TypeError` from serializing a leftover
datetime) is modelled with `Option`: `none` means the run raised and no
report was produced.  Machine-level `float` timestamps are idealized as exact
values in milliseconds (`Int`) / `Rat`.
-/

set_option maxRecDepth 100000

namespace TAS

/-- Python regex `\d` (ASCII digit). -/
def isDig (c : Char) : Bool := decide ('0' ≤ c) && decide (c ≤ '9')

/-- Python regex `\s` / `str.strip` whitespace set. -/
def isPyWs (c : Char) : Bool :=
  c == ' ' || c == '\t' || c == '\n' || c == '\r' ||
  c == Char.ofNat 0x0b || c == Char.ofNat 0x0c

/-- Line-break set recognized by Python `str.splitlines`. -/
def isLineBreak (c : Char) : Bool :=
  c == '\n' || c == '\r' || c == Char.ofNat 0x0b || c == Char.ofNat 0x0c ||
  c == Char.ofNat 0x1c || c == Char.ofNat 0x1d || c == Char.ofNat 0x1e ||
  c == Char.ofNat 0x85 || c == Char.ofNat 0x2028 || c == Char.ofNat 0x2029

/-- Does `pat` occur at the head of `s`? -/
def startsWithL : List Char → List Char → Bool
  | [], _ => true
  | _ :: _, [] => false
  | p :: ps, c :: cs => p == c && startsWithL ps cs

/-- Python `pat in s` substring test. -/
def containsSub (pat : List Char) : List Char → Bool
  | [] => startsWithL pat []
  | c :: cs => startsWithL pat (c :: cs) || containsSub pat cs

/-- If `pat` occurs at the head of `s`, the remainder after it. -/
def dropLit (pat : List Char) (cs : List Char) : Option (List Char) :=
  if startsWithL pat cs then some (cs.drop pat.length) else none

/-- Split at the first occurrence of the literal `lit`:
returns (text before it, text after it).  `none` when `lit` does not occur.
This is the semantics of a lazy `.*?` group followed by a literal. -/
def splitFirstLit (lit : List Char) : List Char → Option (List Char × List Char)
  | [] => none
  | c :: cs =>
      if startsWithL lit (c :: cs) then some ([], (c :: cs).drop lit.length)
      else
        match splitFirstLit lit cs with
        | some (b, a) => some (c :: b, a)
        | none => none

lemma splitFirstLit_length (lit : List Char) (hlit : lit ≠ []) :
    ∀ cs b a, splitFirstLit lit cs = some (b, a) → a.length < cs.length := by
  intro cs
  induction cs with
  | nil => intro b a h; simp [splitFirstLit] at h
  | cons c cs ih =>
      intro b a h
      rw [splitFirstLit] at h
      by_cases hp : startsWithL lit (c :: cs) = true
      · simp [hp] at h
        obtain ⟨_, ha⟩ := h
        subst ha
        have : lit.length ≠ 0 := by
          intro h0; exact hlit (List.length_eq_zero.mp h0)
        simp [List.length_drop]
        omega
      · simp [hp] at h
        cases hrec : splitFirstLit lit cs with
        | none => rw [hrec] at h; simp at h
        | some p =>
            rw [hrec] at h
            cases p with
            | mk b' a' =>
                simp at h
                obtain ⟨_, ha⟩ := h
                subst ha
                have := ih b' a' hrec
                simp
                omega

/-- Python `str.split(sep)` for a one-character separator (always nonempty). -/
def pySplitAux (sep : Char) (acc : List Char) : List Char → List (List Char)
  | [] => [acc.reverse]
  | c :: cs =>
      if c == sep then acc.reverse :: pySplitAux sep [] cs
      else pySplitAux sep (c :: acc) cs

def pySplit (sep : Char) (cs : List Char) : List (List Char) := pySplitAux sep [] cs

/-- Python `str.splitlines` (universal newlines; a trailing terminator does
not open a final empty line). -/
def pySplitlinesAux (acc : List Char) : List Char → List (List Char)
  | [] => if acc.isEmpty then [] else [acc.reverse]
  | '\r' :: '\n' :: cs => acc.reverse :: pySplitlinesAux [] cs
  | c :: cs =>
      if isLineBreak c then acc.reverse :: pySplitlinesAux [] cs
      else pySplitlinesAux (c :: acc) cs

def pySplitlines (cs : List Char) : List (List Char) := pySplitlinesAux [] cs

/-- Python `s.splitlines()[0]`: `none` models the `IndexError` raised when
`s` is empty. -/
def pyFirstLine (cs : List Char) : Option (List Char) := (pySplitlines cs).head?

/-- Python `str.strip()`. -/
def pyStrip (cs : List Char) : List Char :=
  ((cs.dropWhile isPyWs).reverse.dropWhile isPyWs).reverse

/-- Python `str.capitalize()`: first character upper-cased, rest lower-cased. -/
def pyCapitalize : List Char → List Char
  | [] => []
  | c :: cs => c.toUpper :: cs.map Char.toLower

def digVal (c : Char) : Nat := c.toNat - '0'.toNat

def natOfDigits (ds : List Char) : Nat := ds.foldl (fun a c => a * 10 + digVal c) 0

/-! ### Timestamp scraping

The regex `(\d{2}-\d{2}\s\d{2}:\d{2}:\d{2}\.\d{3})` of
`android_settings_script.py` (used both by `re.findall` over the whole
verbose log and, anchored, at the start of each log line). -/

/-- Match the 18-character timestamp shape at the head of `cs`. -/
def tsShape : List Char → Option (List Char)
  | a :: b :: '-' :: c :: d :: w :: e :: f :: ':' :: g :: h :: ':' :: i :: j :: '.' :: k :: l :: m :: _ =>
      if isDig a && isDig b && isDig c && isDig d && isPyWs w && isDig e && isDig f &&
          isDig g && isDig h && isDig i && isDig j && isDig k && isDig l && isDig m then
        some [a, b, '-', c, d, w, e, f, ':', g, h, ':', i, j, '.', k, l, m]
      else none
  | _ => none

/-- `re.findall` of the timestamp pattern: leftmost, non-overlapping.
The fuel argument (instantiated with the input length by the wrapper below)
only bounds the recursion; every step consumes at least one character, so
it never runs out. -/
def findTimestampsAux : Nat → List Char → List (List Char)
  | 0, _ => []
  | _ + 1, [] => []
  | fuel + 1, c :: cs =>
      match tsShape (c :: cs) with
      | some m => m :: findTimestampsAux fuel ((c :: cs).drop 18)
      | none => findTimestampsAux fuel cs

def findTimestamps (cs : List Char) : List (List Char) := findTimestampsAux cs.length cs

def isLeapYear (y : Nat) : Bool := (y % 4 == 0 && y % 100 != 0) || y % 400 == 0

def daysInMonth (y : Nat) (m : Nat) : Nat :=
  if m = 2 then (if isLeapYear y then 29 else 28)
  else if m = 4 ∨ m = 6 ∨ m = 9 ∨ m = 11 then 30
  else 31

def daysBeforeMonth (y : Nat) (m : Nat) : Nat :=
  (List.range (m - 1)).foldl (fun acc i => acc + daysInMonth y (i + 1)) 0

/-- `datetime.strptime(f"{year}-{ts}", "%Y-%m-%d %H:%M:%S.%f")` applied to an
18-character timestamp match, idealized to milliseconds since the start of
`year`.  `none` models the `ValueError` raised on a calendar-invalid value
(month 0 or > 12, day invalid for the month, hour > 23, ...). -/
def parseTs (year : Nat) : List Char → Option Int
  | [m1, m2, '-', d1, d2, _, h1, h2, ':', n1, n2, ':', s1, s2, '.', x1, x2, x3] =>
      let mo := digVal m1 * 10 + digVal m2
      let dy := digVal d1 * 10 + digVal d2
      let hr := digVal h1 * 10 + digVal h2
      let mi := digVal n1 * 10 + digVal n2
      let se := digVal s1 * 10 + digVal s2
      let ms := digVal x1 * 100 + digVal x2 * 10 + digVal x3
      if 1 ≤ mo ∧ mo ≤ 12 ∧ 1 ≤ dy ∧ dy ≤ daysInMonth year mo ∧ hr ≤ 23 ∧ mi ≤ 59 ∧ se ≤ 59 then
        some ((((daysBeforeMonth year mo + (dy - 1)) * 86400 + hr * 3600 + mi * 60 + se) * 1000 + ms : Nat) : Int)
      else none
  | _ => none

/-! ### The `Tests run: N,  Failures: M` summary line -/

/-- Attempt `Tests run: (\d+),  Failures: (\d+)` at the head of `cs`
(greedy `\d+`; exact, since a digit cannot start the following literal). -/
def matchTestsRunAt (cs : List Char) : Option (Nat × Nat) :=
  match dropLit "Tests run: ".data cs with
  | none => none
  | some r1 =>
      let nds := r1.takeWhile isDig
      if nds.isEmpty then none
      else
        match dropLit ",  Failures: ".data (r1.dropWhile isDig) with
        | none => none
        | some r3 =>
            let mds := r3.takeWhile isDig
            if mds.isEmpty then none
            else some (natOfDigits nds, natOfDigits mds)

/-- `re.search` of the summary-line pattern. -/
def searchTestsRun : List Char → Option (Nat × Nat)
  | [] => none
  | c :: cs =>
      match matchTestsRunAt (c :: cs) with
      | some nm => some nm
      | none => searchTestsRun cs

/-! ### Numbered failure blocks

`re.findall(r"\d\) (TC\d{2}.*?)\(com\.example\.settingsautomator\.SettingsTestSuite\)\n(.*?)(?=\n\d\) |\nFAILURES!!!)", ..., re.DOTALL)`.
Both `.*?` groups are lazy ("first occurrence"); the alternatives of the
trailing lookahead are zero-width.  Backtracking of the first lazy group
never succeeds where its first match fails (a lookahead position after a
later suite-literal occurrence is also after the first one), so the
first-occurrence scan below is exact. -/

def suiteLitFB : List Char :=
  ('(' :: "com.example.settingsautomator.SettingsTestSuite)".data) ++ ['\n']

/-- The lookahead `(?=\n\d\) |\nFAILURES!!!)` tested at the head of `cs`. -/
def lookFB (cs : List Char) : Bool :=
  (match cs with
   | '\n' :: d :: ')' :: ' ' :: _ => isDig d
   | _ => false) ||
  startsWithL ('\n' :: "FAILURES!!!".data) cs

/-- Split at the first position where the lookahead holds:
(group-2 text, remainder from the lookahead position). -/
def splitAtLookFB : List Char → Option (List Char × List Char)
  | [] => none
  | c :: cs =>
      if lookFB (c :: cs) then some ([], c :: cs)
      else
        match splitAtLookFB cs with
        | some (g, r) => some (c :: g, r)
        | none => none

lemma splitAtLookFB_length :
    ∀ cs g r, splitAtLookFB cs = some (g, r) → r.length ≤ cs.length := by
  intro cs
  induction cs with
  | nil => intro g r h; simp [splitAtLookFB] at h
  | cons c cs ih =>
      intro g r h
      rw [splitAtLookFB] at h
      by_cases hl : lookFB (c :: cs) = true
      · simp [hl] at h
        obtain ⟨_, hr⟩ := h
        subst hr
        simp
      · simp [hl] at h
        cases hrec : splitAtLookFB cs with
        | none => rw [hrec] at h; simp at h
        | some p =>
            rw [hrec] at h
            cases p with
            | mk g' r' =>
                simp at h
                obtain ⟨_, hr⟩ := h
                subst hr
                have := ih g' r' hrec
                simp
                omega

/-- One attempt of the failure-block pattern at the head of `cs`:
returns (group 1 = test identifier, group 2 = raw error text, remainder
from the lookahead position). -/
def failBlockAt (cs : List Char) : Option (List Char × List Char × List Char) :=
  match cs with
  | d0 :: ')' :: ' ' :: 'T' :: 'C' :: d1 :: d2 :: tail =>
      if isDig d0 && isDig d1 && isDig d2 then
        match splitFirstLit suiteLitFB tail with
        | none => none
        | some (mid, afterLit) =>
            match splitAtLookFB afterLit with
            | none => none
            | some (g2, rest) => some ('T' :: 'C' :: d1 :: d2 :: mid, g2, rest)
      else none
  | _ => none

lemma failBlockAt_length {cs nm err rest : List Char}
    (h : failBlockAt cs = some (nm, err, rest)) : rest.length < cs.length := by
  unfold failBlockAt at h
  split at h
  next d0 d1 d2 tail =>
    split at h
    next hdig =>
      cases h1 : splitFirstLit suiteLitFB tail with
      | none => rw [h1] at h; simp at h
      | some p1 =>
          rw [h1] at h
          cases p1 with
          | mk mid afterLit =>
              dsimp only at h
              cases h2 : splitAtLookFB afterLit with
              | none => simp [h2] at h
              | some p2 =>
                  rw [h2] at h
                  cases p2 with
                  | mk g2 r2 =>
                      simp at h
                      obtain ⟨_, _, hr⟩ := h
                      subst hr
                      have ha : afterLit.length < tail.length :=
                        splitFirstLit_length suiteLitFB (by simp [suiteLitFB]) tail mid afterLit h1
                      have hb : r2.length ≤ afterLit.length :=
                        splitAtLookFB_length afterLit g2 r2 h2
                      simp
                      omega
    next => simp at h
  next => simp at h

/-- `re.findall` of the failure-block pattern: leftmost, non-overlapping,
resuming at the (zero-width) lookahead position.  The fuel (the input
length) bounds the recursion and never runs out, since a successful match
consumes characters (`failBlockAt_length`) and a failed one advances by
one. -/
def failure_findallAux : Nat → List Char → List (List Char × List Char)
  | 0, _ => []
  | _ + 1, [] => []
  | fuel + 1, c :: cs =>
      match failBlockAt (c :: cs) with
      | some (nm, err, rest) => (nm, err) :: failure_findallAux fuel rest
      | none => failure_findallAux fuel cs

def failure_findall (cs : List Char) : List (List Char × List Char) :=
  failure_findallAux cs.length cs

/-- The dict comprehension
`{name: error.strip() for name, error in failure_pattern.findall(summary_output)}`
(on duplicate names the last entry wins). -/
def mkFailedTests (summary : List Char) : List (List Char × List Char) :=
  (failure_findall summary).map (fun p => (p.1, pyStrip p.2))

/-- Python dict lookup on the association list built above (last-wins). -/
def pyDictGet (m : List (List Char × List Char)) (k : List Char) : Option (List Char) :=
  (m.reverse.find? (fun p => p.1 == k)).map (·.2)

/-! ### The verbose-log line pattern

`re.compile(r"^(\d{2}-\d{2}\s\d{2}:\d{2}:\d{2}\.\d{3}).*?I TestRunner: (started|finished): (.*?)\(com")`,
applied with `.search` to each line (anchored at the line start by `^`). -/

inductive EvKind where
  | started
  | finished
  deriving DecidableEq, Repr

/-- Scan for the first occurrence of
`I TestRunner: (started|finished): `; returns the event kind and the
remainder after the literal. -/
def findRunnerEvent : List Char → Option (EvKind × List Char)
  | [] => none
  | c :: cs =>
      match dropLit "I TestRunner: started: ".data (c :: cs) with
      | some r => some (.started, r)
      | none =>
          match dropLit "I TestRunner: finished: ".data (c :: cs) with
          | some r => some (.finished, r)
          | none => findRunnerEvent cs

/-- One application of the log-line pattern: (timestamp text, event kind,
test identifier).  The identifier is the lazy group up to the first
`(com` occurrence. -/
def log_pattern_match (line : List Char) : Option (List Char × EvKind × List Char) :=
  match tsShape line with
  | none => none
  | some ts =>
      match findRunnerEvent (line.drop 18) with
      | none => none
      | some (k, rest) =>
          match splitFirstLit "(com".data rest with
          | none => none
          | some (nm, _) => some (ts, k, nm)

/-! ## Shared canonical-report data model -/

structure RunnerArgs where
  job_id : Option String
  project : Option String
  suite_name : Option String
  deriving DecidableEq, Repr

structure EnvSnapshot where
  device_type : String
  os : String
  deriving DecidableEq, Repr

/-- The `suite_execution_summary` object. -/
structure SuiteSummary where
  total_tests : Int
  passed : Int
  failed : Int
  skipped : Int
  retest : Int
  failed_critical : Int
  deriving DecidableEq, Repr

def zeroSummary : SuiteSummary :=
  { total_tests := 0, passed := 0, failed := 0, skipped := 0, retest := 0, failed_critical := 0 }

/-- Banker's rounding (Python `round`). -/
def roundHalfEven (x : Rat) : Int :=
  let f : Int := ⌊x⌋
  let frac : Rat := x - (f : Rat)
  if frac < 1 / 2 then f
  else if 1 / 2 < frac then f + 1
  else if f % 2 = 0 then f else f + 1

/-- Python `round(x, 3)`. -/
def round3Rat (x : Rat) : Rat := (roundHalfEven (x * 1000) : Rat) / 1000

def pad2 (n : Nat) : String := if n < 10 then "0" ++ toString n else toString n

/-- Python `f"{x:.2f}%"`. -/
def formatPercent2 (x : Rat) : String :=
  let n := roundHalfEven (x * 100)
  (if n < 0 then "-" else "") ++ toString (n.natAbs / 100) ++ "." ++ pad2 (n.natAbs % 100) ++ "%"

def hexDigit (n : Nat) : Char :=
  if n < 10 then Char.ofNat ('0'.toNat + n) else Char.ofNat ('a'.toNat + (n - 10))

def hexChars : Nat → Nat → List Char
  | 0, _ => []
  | k + 1, v => hexChars k (v / 16) ++ [hexDigit (v % 16)]

/-- `str(uuid.uuid4())`: canonical 8-4-4-4-12 hex rendering of 128 random
bits (the fixed version/variant nibbles are irrelevant to the properties
proved below, so they are not forced). -/
def uuid4_string (bits : Nat) : String :=
  let h := hexChars 32 (bits % 2 ^ 128)
  String.mk (h.take 8 ++ ['-'] ++ (h.drop 8).take 4 ++ ['-'] ++ (h.drop 12).take 4 ++
    ['-'] ++ (h.drop 16).take 4 ++ ['-'] ++ h.drop 20)

def abortMessage : String := "Test run was aborted by a termination signal."

/-! ## Instrumentation-Log Adapter (`android_settings_script.py`) -/

/-- A test-case record as built by the verbose-log scan.  `start_time` is
the internal `_start_time` key (milliseconds since the start of the year);
`none` once deleted by a `finished` event. -/
structure ScanTC where
  id : String
  name : String
  status : String
  logs : String
  duration_ms : Int
  start_time : Option Int
  deriving DecidableEq, Repr

structure ScanState where
  test_cases : List ScanTC
  test_map : List (List Char × Nat)
  messages : List String
  deriving DecidableEq, Repr

def initScanState : ScanState :=
  { test_cases := [], test_map := [], messages := ["Test suite initiated."] }

/-- `test_map[test_name]` (newest binding first, as for a Python dict). -/
def mapGet (m : List (List Char × Nat)) (k : List Char) : Option Nat :=
  (m.find? (fun p => p.1 == k)).map (·.2)

def assertionErrorLit : List Char := "java.lang.AssertionError".data

/-- `id` and `name` of a new record: text before the first underscore, and
the remaining underscore-separated words capitalized and joined by spaces. -/
def mkTcName (test_name : List Char) : String × String :=
  let parts := pySplit '_' test_name
  (String.mk (parts.headD []),
   String.mk (List.intercalate [' '] ((parts.drop 1).map pyCapitalize)))

/-- One line of the `for line in verbose_output.splitlines()` loop. -/
def scanStep (year : Nat) (failed_tests : List (List Char × List Char))
    (s : ScanState) (line : List Char) : Option ScanState :=
  match log_pattern_match line with
  | none => some s
  | some (tsStr, kind, test_name) =>
      match parseTs year tsStr with
      | none => none
      | some tms =>
          match kind with
          | .started =>
              let idName := mkTcName test_name
              match pyDictGet failed_tests test_name with
              | none =>
                  let tc : ScanTC :=
                    { id := idName.1, name := idName.2, status := "PASSED",
                      logs := "", duration_ms := 0, start_time := some tms }
                  some { test_cases := s.test_cases ++ [tc],
                         test_map := (test_name, s.test_cases.length) :: s.test_map,
                         messages := s.messages }
              | some error_log =>
                  match pyFirstLine error_log with
                  | none => none
                  | some fl =>
                      let st := if containsSub assertionErrorLit error_log then "FAILED" else "CRITICAL"
                      let tc : ScanTC :=
                        { id := idName.1, name := idName.2, status := st,
                          logs := String.mk error_log, duration_ms := 0, start_time := some tms }
                      some { test_cases := s.test_cases ++ [tc],
                             test_map := (test_name, s.test_cases.length) :: s.test_map,
                             messages := s.messages ++
                               ["Test '" ++ String.mk test_name ++ "' failed: " ++ String.mk fl] }
          | .finished =>
              match mapGet s.test_map test_name with
              | none => some s
              | some idx =>
                  match s.test_cases.get? idx with
                  | none => none
                  | some tc =>
                      match tc.start_time with
                      | none => some s
                      | some stms =>
                          let tc2 : ScanTC := { tc with duration_ms := tms - stms, start_time := none }
                          some { s with test_cases := s.test_cases.set idx tc2 }

/-- The report of the normal (non-aborted) Instrumentation-Log path. -/
structure AReport where
  job_id : String
  status : String
  project : Option String
  details : RunnerArgs
  messages : List String
  logs : String
  started_at : Option String
  ended_at : Option String
  duration_seconds : Rat
  passrate : String
  progress : String
  videos : List String
  screenshots : List String
  suite_key : String
  test_cases : List ScanTC
  summary : SuiteSummary
  environment_snapshot : EnvSnapshot
  deriving DecidableEq, Repr

/-- The timestamp step of `generate_json_report`: `re.findall` over the
verbose log, then `strptime` on the first and last match; only
`duration_seconds` is derived from them. -/
def verboseDuration (year : Nat) (verbose_output : String) : Option Rat :=
  match findTimestamps verbose_output.data with
  | [] => some 0
  | t0 :: rest =>
      match parseTs year t0, parseTs year ((t0 :: rest).getLastD t0) with
      | some a, some b => some (round3Rat (((b - a : Int) : Rat) / 1000))
      | _, _ => none

/-- The `for line in verbose_output.splitlines()` loop. -/
def runScan (year : Nat) (summary_output verbose_output : String) : Option ScanState :=
  (pySplitlines verbose_output.data).foldlM
    (scanStep year (mkFailedTests summary_output.data)) initScanState

/-- Assembly of the report dict of `generate_json_report` from the scan
result, the derived duration and the `Tests run:` summary match. -/
def assembleAReport (genId : String) (runner_args : RunnerArgs) (log_file_path : String)
    (env : EnvSnapshot) (screenshot_files : List String) (dur : Rat) (st : ScanState)
    (sm : Option (Nat × Nat)) : AReport :=
  let detailsR : RunnerArgs :=
    { runner_args with suite_name := some (runner_args.suite_name.getD "Unknown Test Suite") }
  let base : AReport :=
    { job_id := runner_args.job_id.getD genId,
      status := "UNKNOWN",
      project := runner_args.project,
      details := detailsR,
      messages := st.messages ++ ["Test suite finished."],
      logs := log_file_path,
      started_at := none,
      ended_at := none,
      duration_seconds := dur,
      passrate := "0.00%",
      progress := "0/0",
      videos := [],
      screenshots := screenshot_files,
      suite_key := detailsR.suite_name.getD "SettingsTestSuite",
      test_cases := st.test_cases,
      summary := zeroSummary,
      environment_snapshot := env }
  match sm with
  | none => base
  | some (n, m) =>
      let total : Int := (n : Int)
      let failures : Int := (m : Int)
      let passed : Int := total - failures
      { base with
        status := if failures > 0 then "FAILED" else "PASSED",
        progress := toString total ++ "/" ++ toString total,
        passrate :=
          if total > 0 then formatPercent2 ((passed : Rat) / (total : Rat) * 100)
          else base.passrate,
        summary := { zeroSummary with
          total_tests := total, passed := passed, failed := failures,
          failed_critical :=
            (((st.test_cases.filter (fun tc => tc.status == "CRITICAL")).length : Nat) : Int) } }

/-- `generate_json_report`.  `year` is `datetime.now().year`; `genId` the
`str(uuid.uuid4())` drawn for the `job_id` default.  `none` models an
uncaught exception (`ValueError` from `strptime`, `IndexError` from
`splitlines()[0]` on an empty failure text, `TypeError` from `json.dump`
on a record still holding its `_start_time` datetime). -/
def generate_json_report (year : Nat) (genId : String)
    (summary_output verbose_output : String) (env : EnvSnapshot)
    (screenshot_files : List String) (runner_args : RunnerArgs)
    (log_file_path : String) : Option AReport :=
  match verboseDuration year verbose_output with
  | none => none
  | some dur =>
      match runScan year summary_output verbose_output with
      | none => none
      | some st =>
          if st.test_cases.any (fun tc => tc.start_time.isSome) then none
          else
            some (assembleAReport genId runner_args log_file_path env screenshot_files dur st
              (searchTestsRun summary_output.data))

/-- The report of `generate_aborted_report` (note: no `started_at`,
`ended_at`, `duration_seconds`, `passrate` or `progress` keys, and the
caller-supplied details are passed through unmodified). -/
structure AbortReport where
  job_id : String
  status : String
  project : Option String
  details : RunnerArgs
  messages : List String
  logs : String
  videos : List String
  screenshots : List String
  test_cases : List ScanTC
  summary : SuiteSummary
  environment_snapshot : EnvSnapshot
  deriving DecidableEq, Repr

def generate_aborted_report (genId : String) (runner_args : RunnerArgs)
    (log_file_path : String) (env : EnvSnapshot) (screenshot_files : List String) :
    AbortReport :=
  { job_id := runner_args.job_id.getD genId,
    status := "ABORTED",
    project := runner_args.project,
    details := runner_args,
    messages := ["Test suite initiated.", abortMessage],
    logs := log_file_path,
    videos := [],
    screenshots := screenshot_files,
    test_cases := [],
    summary := zeroSummary,
    environment_snapshot := env }

/-- Result of the CLI-argument parse. -/
inductive ArgParse where
  | missing
  | badJson
  | ok (args : RunnerArgs)
  deriving Repr

inductive AndroidOut where
  | aborted (r : AbortReport)
  | normal (r : AReport)
  deriving DecidableEq, Repr

/-- `main()` of `android_settings_script.py` after the instrumentation
process has exited: the emitted report (if any) and the process exit code.
A `return` from `main` is exit code 0; an uncaught exception is exit
code 1. -/
def android_main (arg : ArgParse) (termination_signal_received : Bool)
    (year : Nat) (genId : String) (summary_output verbose_output : String)
    (env : EnvSnapshot) (screenshot_files : List String) (log_file_path : String) :
    Option AndroidOut × Nat :=
  match arg with
  | .missing => (none, 1)
  | .badJson => (none, 1)
  | .ok runner_args =>
      if termination_signal_received then
        (some (.aborted (generate_aborted_report genId runner_args log_file_path env screenshot_files)), 0)
      else if !containsSub "FAILURES!!!".data summary_output.data &&
              !containsSub "OK".data summary_output.data then
        (none, 0)
      else
        match generate_json_report year genId summary_output verbose_output env
            screenshot_files runner_args log_file_path with
        | some r => (some (.normal r), 0)
        | none => (none, 1)

/-! ## Structured-Report Adapter (`playwright_web.py`)

The input model is the Playwright JSON report after `json.loads`:
`stats.startTime` is kept as an already-parsed absolute timestamp (epoch
seconds, exact), `stats.duration` in milliseconds.  Fields read through
`.get(key, default)` in the source are `Option`-typed here. -/

structure PWError where
  message : Option String
  stack : Option String
  deriving DecidableEq, Repr

structure PWResult where
  status : Option String
  error : Option PWError
  deriving DecidableEq, Repr

structure PWTest where
  status : Option String
  results : List PWResult
  deriving DecidableEq, Repr

structure PWSpec where
  title : String
  tests : List PWTest
  deriving DecidableEq, Repr

inductive PWSuite where
  | mk (specs : List PWSpec) (suites : List PWSuite)

structure PWStats where
  startTime : Rat
  duration : Rat
  expected : Option Int
  unexpected : Option Int
  flaky : Option Int
  skipped : Option Int
  deriving DecidableEq, Repr

structure PWData where
  stats : PWStats
  suites : List PWSuite

/-! The nested `find_specs` helper: specs of the current suite first, then
the specs of every sub-suite, depth-first and in order. -/

mutual

def find_specs : PWSuite → List PWSpec
  | .mk specs subs => specs ++ find_specs_list subs

def find_specs_list : List PWSuite → List PWSpec
  | [] => []
  | s :: rest => find_specs s ++ find_specs_list rest

end

/-! `clean_ansi_escape_codes`: the pattern is ESC followed by either a
single byte in 0x40-0x5A or 0x5C-0x5F, or by a bracket and a CSI sequence
(parameter bytes 0x30-0x3F, intermediate bytes 0x20-0x2F, one final byte
0x40-0x7E). -/

def isEscSingle (c : Char) : Bool :=
  (decide ('@' ≤ c) && decide (c ≤ 'Z')) || (decide ('\\' ≤ c) && decide (c ≤ '_'))

def isCsiParam (c : Char) : Bool := decide ('0' ≤ c) && decide (c ≤ '?')

def isCsiInter (c : Char) : Bool := decide (' ' ≤ c) && decide (c ≤ '/')

def isCsiFinal (c : Char) : Bool := decide ('@' ≤ c) && decide (c ≤ '~')

/-- Given the characters after an ESC byte, the remainder after a complete
escape sequence (the three character classes are disjoint, so the greedy
scan is exact). -/
def ansiTail : List Char → Option (List Char)
  | [] => none
  | d :: rest =>
      if d == '[' then
        match (rest.dropWhile isCsiParam).dropWhile isCsiInter with
        | f :: rest3 => if isCsiFinal f then some rest3 else none
        | [] => none
      else if isEscSingle d then some rest
      else none

lemma length_dropWhile_le (p : Char → Bool) : ∀ l : List Char, (l.dropWhile p).length ≤ l.length := by
  intro l
  induction l with
  | nil => simp [List.dropWhile]
  | cons c cs ih =>
      rw [List.dropWhile]
      by_cases h : p c = true
      · simp [h]
        omega
      · simp [h]

lemma ansiTail_length : ∀ cs r, ansiTail cs = some r → r.length < cs.length := by
  intro cs r h
  cases cs with
  | nil => simp [ansiTail] at h
  | cons d rest =>
      rw [ansiTail] at h
      by_cases hb : (d == '[') = true
      · simp [hb] at h
        cases h2 : (rest.dropWhile isCsiParam).dropWhile isCsiInter with
        | nil => rw [h2] at h; simp at h
        | cons f rest3 =>
            rw [h2] at h
            by_cases hf : isCsiFinal f = true
            · simp [hf] at h
              subst h
              have l1 : ((rest.dropWhile isCsiParam).dropWhile isCsiInter).length ≤
                  (rest.dropWhile isCsiParam).length := length_dropWhile_le _ _
              have l2 : (rest.dropWhile isCsiParam).length ≤ rest.length :=
                length_dropWhile_le _ _
              rw [h2] at l1
              simp at l1 ⊢
              omega
            · simp [hf] at h
      · simp [hb] at h
        by_cases hs : isEscSingle d = true
        · simp [hs] at h
          subst h
          simp
        · simp [hs] at h

/-- `re.sub` of the ANSI-escape pattern with the empty string.  The fuel
(the input length) bounds the recursion and never runs out, since every
step consumes at least one character (`ansiTail_length`). -/
def cleanAnsiAux : Nat → List Char → List Char
  | 0, _ => []
  | _ + 1, [] => []
  | fuel + 1, c :: rest =>
      if c == Char.ofNat 0x1B then
        match ansiTail rest with
        | some r => cleanAnsiAux fuel r
        | none => c :: cleanAnsiAux fuel rest
      else c :: cleanAnsiAux fuel rest

def clean_ansi_escape_codes (s : String) : String :=
  String.mk (cleanAnsiAux s.data.length s.data)

/-- The nested `get_test_status` helper. -/
def get_test_status (spec : PWSpec) : String :=
  match spec.tests with
  | [] => "SKIPPED"
  | test_run :: _ =>
      if test_run.status == some "skipped" && test_run.results.isEmpty then "SKIPPED"
      else
        match test_run.results with
        | [] => "FAILED"
        | run_result :: _ =>
            if run_result.status == some "passed" then "PASSED"
            else if run_result.status == some "interrupted" then "SKIPPED"
            else "FAILED"

/-- `f"TC{i+1:02d}"`. -/
def pwId (n : Nat) : String := "TC" ++ pad2 n

/-- `spec['title'].replace('.', '_').replace(' ', '')`. -/
def pwName (title : String) : String :=
  String.mk ((title.data.map (fun c => if c == '.' then '_' else c)).filter (fun c => !(c == ' ')))

structure PTestCase where
  id : String
  name : String
  status : String
  logs : String
  deriving DecidableEq, Repr

/-- One iteration of the `for i, spec in enumerate(all_specs)` loop body:
the record plus the optional failure message appended to `messages`.
`none` models an uncaught exception. -/
def mk_test_case (i : Nat) (spec : PWSpec) : Option (PTestCase × Option String) :=
  let test_status := get_test_status spec
  let base : PTestCase :=
    { id := pwId (i + 1), name := pwName spec.title, status := test_status, logs := "" }
  if test_status == "FAILED" then
    match spec.tests with
    | [] => none
    | t0 :: _ =>
        match t0.results with
        | [] => some (base, none)
        | r0 :: _ =>
            let error_message :=
              clean_ansi_escape_codes ((r0.error.bind (·.message)).getD "No error message found.")
            let error_stack :=
              clean_ansi_escape_codes ((r0.error.bind (·.stack)).getD "No stack trace found.")
            match pyFirstLine error_message.data with
            | none => none
            | some fl =>
                some ({ base with logs :=
                          String.mk (pyStrip error_message.data) ++ "\n" ++
                          String.mk (pyStrip error_stack.data) },
                      some ("Test '" ++ spec.title ++ "' failed: " ++ String.mk fl))
  else some (base, none)

/-- The loop over one top-level suite's flattened specs, starting the
`enumerate` counter at `i`. -/
def build_cases : Nat → List PWSpec → Option (List PTestCase × List String)
  | _, [] => some ([], [])
  | i, sp :: rest =>
      match mk_test_case i sp with
      | none => none
      | some (tc, msg) =>
          match build_cases (i + 1) rest with
          | none => none
          | some (tcs, msgs) =>
              some (tc :: tcs, match msg with | some m => m :: msgs | none => msgs)

/-- The outer `for suite in playwright_data.get('suites', [])` loop: the
`enumerate` counter restarts at 0 for every top-level suite. -/
def build_all : List PWSuite → Option (List PTestCase × List String)
  | [] => some ([], [])
  | s :: rest =>
      match build_cases 0 (find_specs s) with
      | none => none
      | some (a, m1) =>
          match build_all rest with
          | none => none
          | some (b, m2) => some (a ++ b, m1 ++ m2)

/-- Caller-supplied job metadata (the recognized keys). -/
structure PDetails where
  job_id : Option String
  suite_name : Option String
  deriving DecidableEq, Repr

structure PReport where
  job_id : String
  status : String
  project : String
  details : PDetails
  messages : List String
  logs : String
  started_at : Rat
  ended_at : Rat
  duration_seconds : Rat
  passrate : String
  progress : String
  videos : List String
  screenshots : List String
  suite_key : String
  test_cases : List PTestCase
  summary : SuiteSummary
  environment_snapshot : EnvSnapshot
  deriving DecidableEq, Repr

/-- `transform_playwright_result` on already-decoded JSON.  `none` models an
uncaught exception inside the transform. -/
def transform_playwright_result (d : PWData) (details : PDetails) (platform : String) :
    Option PReport :=
  let run_start_time := d.stats.startTime
  let run_duration := d.stats.duration / 1000
  let run_end_time := run_start_time + run_duration
  let total_run := d.stats.expected.getD 0 + d.stats.unexpected.getD 0 + d.stats.flaky.getD 0
  let passed_count := d.stats.expected.getD 0
  let failed_count := d.stats.unexpected.getD 0 + d.stats.flaky.getD 0
  let skipped_count := d.stats.skipped.getD 0
  let overall_status :=
    if failed_count > 0 then "FAILED"
    else if total_run == 0 && skipped_count > 0 then "SKIPPED"
    else "PASSED"
  match build_all d.suites with
  | none => none
  | some (cases, failMsgs) =>
      let total_tests := total_run + skipped_count
      some
        { job_id := "",
          status := overall_status,
          project := "webApp",
          details := details,
          messages := "Test suite initiated." :: failMsgs ++ ["Test suite finished."],
          logs := "playwright_output.txt",
          started_at := run_start_time,
          ended_at := run_end_time,
          duration_seconds := round3Rat run_duration,
          passrate :=
            if total_tests > 0 then formatPercent2 ((passed_count : Rat) / (total_tests : Rat) * 100)
            else "0.00%",
          progress := toString total_run ++ "/" ++ toString (total_run + skipped_count),
          videos := [],
          screenshots := [],
          suite_key := details.suite_name.getD "UnknownSuite",
          test_cases := cases,
          summary := { total_tests := total_tests, passed := passed_count,
                       failed := failed_count, skipped := skipped_count,
                       retest := 0, failed_critical := failed_count },
          environment_snapshot := { device_type := "Desktop", os := platform } }

/-- The post-transform steps of `__main__`: abort overlay, screenshots,
log-file path. -/
def playwright_finalize (termination_signal_received : Bool) (r : PReport)
    (screenshot_paths : List String) (logFileExists : Bool) : PReport :=
  let r1 :=
    if termination_signal_received then
      { r with status := "ABORTED", messages := r.messages ++ [abortMessage] }
    else r
  let r2 := { r1 with screenshots := screenshot_paths }
  if logFileExists then { r2 with logs := "playwright_output.txt" }
  else { r2 with logs := "" }

/-- `__main__` of `playwright_web.py` after the Playwright process exited:
the printed report (if any) and the process exit code.
`arg = none` is a missing or JSON-invalid CLI argument; the outer layer of
`stdout_data` is `none` when the captured stdout was empty, the inner layer
`none` when it was not decodable JSON (`transform` returns `None`). -/
def playwright_main (arg : Option PDetails) (npmInstallOk : Bool)
    (termination_signal_received : Bool) (stdout_data : Option (Option PWData))
    (platform : String) (screenshot_paths : List String) (logFileExists : Bool) :
    Option PReport × Nat :=
  match arg with
  | none => (none, 1)
  | some job_details =>
      if !npmInstallOk then (none, 1)
      else
        match stdout_data with
        | none => (none, 1)
        | some parsed =>
            match parsed with
            | none => (none, 1)
            | some d =>
                match transform_playwright_result d job_details platform with
                | none => (none, 1)
                | some r =>
                    (some (playwright_finalize termination_signal_received r
                      screenshot_paths logFileExists), 0)

/-! ## Helper lemmas -/

def AndroidOut.statusOf : AndroidOut → String
  | .aborted r => r.status
  | .normal r => r.status

def AndroidOut.messagesOf : AndroidOut → List String
  | .aborted r => r.messages
  | .normal r => r.messages

def AndroidOut.summaryOf : AndroidOut → SuiteSummary
  | .aborted r => r.summary
  | .normal r => r.summary

lemma playwright_finalize_fields (flag : Bool) (r : PReport) (shots : List String) (le : Bool) :
    (playwright_finalize flag r shots le).summary = r.summary ∧
    (playwright_finalize flag r shots le).test_cases = r.test_cases ∧
    (playwright_finalize flag r shots le).job_id = r.job_id ∧
    (playwright_finalize flag r shots le).status = (if flag then "ABORTED" else r.status) ∧
    (playwright_finalize flag r shots le).messages =
      (if flag then r.messages ++ [abortMessage] else r.messages) := by
  unfold playwright_finalize
  cases flag <;> cases le <;> simp

/-- Inversion of a report-producing run of the Structured-Report main flow. -/
lemma playwright_main_some {det : Option PDetails} {npmOk flag : Bool}
    {stdout : Option (Option PWData)} {platform : String}
    {pshots : List String} {logEx : Bool} {r : PReport} {c : Nat}
    (h : playwright_main det npmOk flag stdout platform pshots logEx = (some r, c)) :
    ∃ jd d r0, det = some jd ∧ stdout = some (some d) ∧ npmOk = true ∧
      transform_playwright_result d jd platform = some r0 ∧
      r = playwright_finalize flag r0 pshots logEx ∧ c = 0 := by
  unfold playwright_main at h
  cases det with
  | none => simp at h
  | some jd =>
      cases npmOk with
      | false => simp at h
      | true =>
          simp only [Bool.not_true] at h
          rw [if_neg (by simp)] at h
          cases stdout with
          | none => simp at h
          | some parsed =>
              cases parsed with
              | none => simp at h
              | some d =>
                  simp only at h
                  cases htr : transform_playwright_result d jd platform with
                  | none => rw [htr] at h; simp at h
                  | some r0 =>
                      rw [htr] at h
                      simp at h
                      exact ⟨jd, d, r0, rfl, rfl, rfl, htr, h.1.symm, h.2.symm⟩

/-- Inversion of a report-producing run of the Instrumentation-Log main flow. -/
lemma android_main_some {arg : ArgParse} {flag : Bool} {year : Nat} {genId : String}
    {so vo : String} {env : EnvSnapshot} {shots : List String} {logp : String}
    {out : AndroidOut} {c : Nat}
    (h : android_main arg flag year genId so vo env shots logp = (some out, c)) :
    ∃ ra, arg = ArgParse.ok ra ∧ c = 0 ∧
      ((flag = true ∧ out = .aborted (generate_aborted_report genId ra logp env shots)) ∨
       (flag = false ∧ ∃ r, generate_json_report year genId so vo env shots ra logp = some r ∧
         out = .normal r)) := by
  unfold android_main at h
  cases arg with
  | missing => simp at h
  | badJson => simp at h
  | ok ra =>
      dsimp only at h
      refine ⟨ra, rfl, ?_⟩
      cases flag with
      | true =>
          rw [if_pos rfl] at h
          injection h with h1 h2
          injection h1 with h1
          exact ⟨h2.symm, Or.inl ⟨rfl, h1.symm⟩⟩
      | false =>
          rw [if_neg (by decide)] at h
          by_cases hm : (!containsSub "FAILURES!!!".data so.data &&
              !containsSub "OK".data so.data) = true
          · rw [if_pos hm] at h
            simp at h
          · rw [if_neg hm] at h
            cases hg : generate_json_report year genId so vo env shots ra logp with
            | none => rw [hg] at h; simp at h
            | some r =>
                rw [hg] at h
                simp at h
                exact ⟨h.2.symm, Or.inr ⟨rfl, r, rfl, h.1.symm⟩⟩

/-- Inversion of a successful `generate_json_report` run. -/
lemma generate_json_report_some {year : Nat} {genId : String} {so vo : String}
    {env : EnvSnapshot} {shots : List String} {ra : RunnerArgs} {logp : String} {r : AReport}
    (h : generate_json_report year genId so vo env shots ra logp = some r) :
    ∃ dur st, verboseDuration year vo = some dur ∧ runScan year so vo = some st ∧
      st.test_cases.any (fun tc => tc.start_time.isSome) = false ∧
      r = assembleAReport genId ra logp env shots dur st (searchTestsRun so.data) := by
  unfold generate_json_report at h
  cases hd : verboseDuration year vo with
  | none => rw [hd] at h; simp at h
  | some dur =>
      rw [hd] at h
      cases hs : runScan year so vo with
      | none => rw [hs] at h; simp at h
      | some st =>
          rw [hs] at h
          simp only at h
          by_cases ha : st.test_cases.any (fun tc => tc.start_time.isSome) = true
          · rw [if_pos ha] at h; simp at h
          · rw [if_neg ha] at h
            simp at h
            exact ⟨dur, st, rfl, rfl, by simpa using ha, h.symm⟩

/-- Field-level inversion of a successful transform. -/
lemma transform_fields {d : PWData} {det : PDetails} {platform : String} {r : PReport}
    (h : transform_playwright_result d det platform = some r) :
    r.job_id = "" ∧
    r.summary.total_tests =
      d.stats.expected.getD 0 + d.stats.unexpected.getD 0 + d.stats.flaky.getD 0 +
        d.stats.skipped.getD 0 ∧
    r.summary.passed = d.stats.expected.getD 0 ∧
    r.summary.failed = d.stats.unexpected.getD 0 + d.stats.flaky.getD 0 ∧
    r.summary.skipped = d.stats.skipped.getD 0 ∧
    r.summary.failed_critical = d.stats.unexpected.getD 0 + d.stats.flaky.getD 0 ∧
    (r.status = "FAILED" ∨ r.status = "SKIPPED" ∨ r.status = "PASSED") := by
  unfold transform_playwright_result at h
  cases hb : build_all d.suites with
  | none => rw [hb] at h; simp at h
  | some p =>
      rw [hb] at h
      cases p with
      | mk cs msgs =>
          simp only at h
          injection h with h
          subst h
          refine ⟨rfl, rfl, rfl, rfl, rfl, rfl, ?_⟩
          dsimp only
          split_ifs with h1 h2
          · exact Or.inl rfl
          · exact Or.inr (Or.inl rfl)
          · exact Or.inr (Or.inr rfl)

/-! ## Concrete fixtures used by witnesses and counterexamples -/

def exArgs : RunnerArgs :=
  { job_id := some "job-7", project := some "android", suite_name := some "Settings" }

def exEnv : EnvSnapshot := { device_type := "Pixel", os := "Android 14" }

def exDetails : PDetails := { job_id := some "J1", suite_name := some "WebSuite" }

def exStats : PWStats :=
  { startTime := 1000, duration := 2500, expected := some 3, unexpected := some 0,
    flaky := some 0, skipped := some 1 }

def exSpecPassed : PWSpec :=
  { title := "a.b c",
    tests := [{ status := some "expected", results := [{ status := some "passed", error := none }] }] }

/-- A spec whose first test has a non-skipped status and an empty `results`
list: `get_test_status` falls through to the final `return 'FAILED'`. -/
def exSpecFallback : PWSpec :=
  { title := "fb", tests := [{ status := some "passed", results := [] }] }

def exSpecFailed : PWSpec :=
  { title := "ff",
    tests := [{ status := some "unexpected",
                results := [{ status := some "failed",
                              error := some { message := some "boom happened",
                                              stack := some "at line 3" } }] }] }

def exData : PWData := { stats := exStats, suites := [.mk [exSpecPassed] []] }

def exSummary : String :=
  "Tests run: 2,  Failures: 1\n1) TC01_wifi_on(com.example.settingsautomator.SettingsTestSuite)\njava.lang.AssertionError: boom\nFAILURES!!!"

def exVerbose : String :=
  "01-02 03:04:05.678 I TestRunner: started: TC01_wifi_on(com\n01-02 03:04:06.678 I TestRunner: finished: TC01_wifi_on(com\n01-02 03:04:06.900 I TestRunner: started: TC02_bt_on(com\n01-02 03:04:07.000 I TestRunner: finished: TC02_bt_on(com"

def exAbortedOut : AndroidOut :=
  AndroidOut.aborted (generate_aborted_report "g" exArgs "log" exEnv [])

def emptyPReport : PReport :=
  { job_id := "", status := "", project := "", details := { job_id := none, suite_name := none },
    messages := [], logs := "", started_at := 0, ended_at := 0, duration_seconds := 0,
    passrate := "", progress := "", videos := [], screenshots := [], suite_key := "",
    test_cases := [], summary := zeroSummary,
    environment_snapshot := { device_type := "", os := "" } }

def exPWAbortReport : PReport :=
  match (playwright_main (some exDetails) true true (some (some exData)) "linux" [] true).1 with
  | some r => r
  | none => emptyPReport

/-! ## Claims -/

/-- C1: for every run in which the abort flag (`termination_signal_received`)
is set before the external process exits and a report is emitted, the
report's `status` is `"ABORTED"` and the last element of `messages` is the
abort notice "Test run was aborted by a termination signal." — for both
adapters, regardless of the captured process output. -/
theorem C1_abort_overlay
    (arg : ArgParse) (year : Nat) (genId : String) (so vo : String)
    (env : EnvSnapshot) (shots : List String) (logp : String)
    (det : Option PDetails) (npmOk : Bool) (stdout : Option (Option PWData))
    (platform : String) (pshots : List String) (logEx : Bool) :
    (∀ out c, android_main arg true year genId so vo env shots logp = (some out, c) →
        out.statusOf = "ABORTED" ∧ out.messagesOf.getLast? = some abortMessage) ∧
    (∀ r c, playwright_main det npmOk true stdout platform pshots logEx = (some r, c) →
        r.status = "ABORTED" ∧ r.messages.getLast? = some abortMessage) := by
  constructor
  · intro out c h
    obtain ⟨ra, -, -, hcase⟩ := android_main_some h
    rcases hcase with ⟨-, hout⟩ | ⟨hfl, -⟩
    · subst hout
      exact ⟨rfl, rfl⟩
    · exact absurd hfl (by decide)
  · intro r c h
    obtain ⟨jd, d, r0, -, -, -, -, hr, -⟩ := playwright_main_some h
    subst hr
    have hf := playwright_finalize_fields true r0 pshots logEx
    refine ⟨?_, ?_⟩
    · rw [hf.2.2.2.1]
      simp
    · rw [hf.2.2.2.2]
      simp only [if_pos rfl]
      exact List.getLast?_concat _

theorem C1_abort_overlay_witness :
    exAbortedOut.statusOf = "ABORTED" ∧ exAbortedOut.messagesOf.getLast? = some abortMessage ∧
    exPWAbortReport.status = "ABORTED" ∧ exPWAbortReport.messages.getLast? = some abortMessage := by
  have h1 := (C1_abort_overlay (.ok exArgs) 2026 "g" "so" "vo" exEnv [] "log"
      (some exDetails) true (some (some exData)) "linux" [] true).1 exAbortedOut 0 (by decide)
  have h2 := (C1_abort_overlay (.ok exArgs) 2026 "g" "so" "vo" exEnv [] "log"
      (some exDetails) true (some (some exData)) "linux" [] true).2 exPWAbortReport 0 (by rfl)
  exact ⟨h1.1, h1.2, h2.1, h2.2⟩

/-- C3: in every report produced by either adapter (instrumentation or
structured, normal or abort path), `summary.total == summary.passed +
summary.failed + summary.skipped`; `retest` and `failed_critical` do not
enter this sum. -/
theorem C3_summary_additivity
    (arg : ArgParse) (flag : Bool) (year : Nat) (genId : String) (so vo : String)
    (env : EnvSnapshot) (shots : List String) (logp : String)
    (det : Option PDetails) (npmOk pwflag : Bool) (stdout : Option (Option PWData))
    (platform : String) (pshots : List String) (logEx : Bool) :
    (∀ out c, android_main arg flag year genId so vo env shots logp = (some out, c) →
        out.summaryOf.total_tests =
          out.summaryOf.passed + out.summaryOf.failed + out.summaryOf.skipped) ∧
    (∀ r c, playwright_main det npmOk pwflag stdout platform pshots logEx = (some r, c) →
        r.summary.total_tests = r.summary.passed + r.summary.failed + r.summary.skipped) := by
  constructor
  · intro out c h
    obtain ⟨ra, -, -, hcase⟩ := android_main_some h
    rcases hcase with ⟨-, hout⟩ | ⟨-, r, hg, hout⟩
    · subst hout
      simp [AndroidOut.summaryOf, generate_aborted_report, zeroSummary]
    · subst hout
      obtain ⟨dur, st, -, -, -, hr⟩ := generate_json_report_some hg
      subst hr
      show (assembleAReport genId ra logp env shots dur st (searchTestsRun so.data)).summary.total_tests = _
      cases hsm : searchTestsRun so.data with
      | none => simp [AndroidOut.summaryOf, assembleAReport, zeroSummary]
      | some nm =>
          cases nm with
          | mk n m =>
              simp [AndroidOut.summaryOf, assembleAReport, zeroSummary]
  · intro r c h
    obtain ⟨jd, d, r0, -, -, -, htr, hr, -⟩ := playwright_main_some h
    subst hr
    rw [(playwright_finalize_fields pwflag r0 pshots logEx).1]
    obtain ⟨-, ht, hp, hf, hsk, -, -⟩ := transform_fields htr
    rw [ht, hp, hf, hsk]
    ring

theorem C3_summary_additivity_witness :
    (generate_aborted_report "g" exArgs "log" exEnv []).summary.total_tests =
      (generate_aborted_report "g" exArgs "log" exEnv []).summary.passed +
      (generate_aborted_report "g" exArgs "log" exEnv []).summary.failed +
      (generate_aborted_report "g" exArgs "log" exEnv []).summary.skipped ∧
    exPWAbortReport.summary.total_tests =
      exPWAbortReport.summary.passed + exPWAbortReport.summary.failed +
      exPWAbortReport.summary.skipped := by
  have h1 := (C3_summary_additivity (.ok exArgs) true 2026 "g" "so" "vo" exEnv [] "log"
      (some exDetails) true true (some (some exData)) "linux" [] true).1 exAbortedOut 0 (by decide)
  have h2 := (C3_summary_additivity (.ok exArgs) true 2026 "g" "so" "vo" exEnv [] "log"
      (some exDetails) true true (some (some exData)) "linux" [] true).2 exPWAbortReport 0 (by rfl)
  exact ⟨h1, h2⟩

/-- C6: the exit code is 0 whenever a report was produced (including ABORTED
and FAILED reports) and non-zero only when no report could be produced; in
particular, when neither the `FAILURES!!!` nor the `OK` marker is found in
the instrumentation summary (and no abort was signalled), execution stops
without emitting a report. -/
theorem C6_exit_codes
    (arg : ArgParse) (flag : Bool) (year : Nat) (genId : String) (so vo : String)
    (env : EnvSnapshot) (shots : List String) (logp : String)
    (det : Option PDetails) (npmOk pwflag : Bool) (stdout : Option (Option PWData))
    (platform : String) (pshots : List String) (logEx : Bool) :
    (((android_main arg flag year genId so vo env shots logp).1.isSome →
        (android_main arg flag year genId so vo env shots logp).2 = 0) ∧
      ((android_main arg flag year genId so vo env shots logp).2 ≠ 0 →
        (android_main arg flag year genId so vo env shots logp).1 = none) ∧
      (∀ ra, arg = ArgParse.ok ra → flag = false →
        containsSub "FAILURES!!!".data so.data = false →
        containsSub "OK".data so.data = false →
        (android_main arg flag year genId so vo env shots logp).1 = none)) ∧
    (((playwright_main det npmOk pwflag stdout platform pshots logEx).1.isSome →
        (playwright_main det npmOk pwflag stdout platform pshots logEx).2 = 0) ∧
      ((playwright_main det npmOk pwflag stdout platform pshots logEx).2 ≠ 0 →
        (playwright_main det npmOk pwflag stdout platform pshots logEx).1 = none)) := by
  have keyA : ∀ out, (android_main arg flag year genId so vo env shots logp).1 = some out →
      (android_main arg flag year genId so vo env shots logp).2 = 0 := by
    intro out h1
    have hp : android_main arg flag year genId so vo env shots logp =
        (some out, (android_main arg flag year genId so vo env shots logp).2) := by
      rw [← h1]
    obtain ⟨ra, -, hc, -⟩ := android_main_some hp
    exact hc
  have keyP : ∀ r, (playwright_main det npmOk pwflag stdout platform pshots logEx).1 = some r →
      (playwright_main det npmOk pwflag stdout platform pshots logEx).2 = 0 := by
    intro r h1
    have hp : playwright_main det npmOk pwflag stdout platform pshots logEx =
        (some r, (playwright_main det npmOk pwflag stdout platform pshots logEx).2) := by
      rw [← h1]
    obtain ⟨jd, d, r0, -, -, -, -, -, hc⟩ := playwright_main_some hp
    exact hc
  refine ⟨⟨?_, ?_, ?_⟩, ?_, ?_⟩
  · intro hs
    obtain ⟨out, h1⟩ := Option.isSome_iff_exists.mp hs
    exact keyA out h1
  · intro hc
    cases ho : (android_main arg flag year genId so vo env shots logp).1 with
    | none => rfl
    | some out => exact absurd (keyA out ho) hc
  · intro ra ha hf h1 h2
    subst ha
    subst hf
    unfold android_main
    dsimp only
    rw [if_neg (by decide), if_pos (by rw [h1, h2]; rfl)]
  · intro hs
    obtain ⟨r, h1⟩ := Option.isSome_iff_exists.mp hs
    exact keyP r h1
  · intro hc
    cases ho : (playwright_main det npmOk pwflag stdout platform pshots logEx).1 with
    | none => rfl
    | some r => exact absurd (keyP r ho) hc

theorem C6_exit_codes_witness :
    (android_main (.ok exArgs) false 2026 "g" "no markers here" "" exEnv [] "log").1 = none ∧
    (playwright_main (some exDetails) true false (some (some exData)) "linux" [] true).2 = 0 := by
  refine ⟨?_, ?_⟩
  · exact (C6_exit_codes (.ok exArgs) false 2026 "g" "no markers here" "" exEnv [] "log"
      (some exDetails) true false (some (some exData)) "linux" [] true).1.2.2 exArgs rfl rfl
      (by decide) (by decide)
  · exact (C6_exit_codes (.ok exArgs) false 2026 "g" "no markers here" "" exEnv [] "log"
      (some exDetails) true false (some (some exData)) "linux" [] true).2.1 (by rfl)

def exDataSkipped : PWData :=
  { stats := { startTime := 0, duration := 0, expected := some 0, unexpected := some 0,
               flaky := some 0, skipped := some 1 },
    suites := [] }

/-- C7 counterexample: on a structured report whose stats are all zero except
one skipped test, the Structured-Report Adapter emits the top-level status
`"SKIPPED"`, which is none of the four claimed values. -/
theorem C7_counterexample :
    (transform_playwright_result exDataSkipped exDetails "linux").map (fun r => r.status) =
      some "SKIPPED" ∧
    ¬ ("SKIPPED" = "PASSED" ∨ "SKIPPED" = "FAILED" ∨ "SKIPPED" = "ABORTED" ∨
       "SKIPPED" = "UNKNOWN") := by
  exact ⟨by rfl, by decide⟩

/-- C7 (amended): in every report produced by either adapter the top-level
status is one of the five values PASSED, FAILED, ABORTED, UNKNOWN, SKIPPED
(SKIPPED arises only on the structured adapter's no-test-run path). -/
theorem C7_status_enum
    (arg : ArgParse) (flag : Bool) (year : Nat) (genId : String) (so vo : String)
    (env : EnvSnapshot) (shots : List String) (logp : String)
    (det : Option PDetails) (npmOk pwflag : Bool) (stdout : Option (Option PWData))
    (platform : String) (pshots : List String) (logEx : Bool) :
    (∀ out c, android_main arg flag year genId so vo env shots logp = (some out, c) →
        out.statusOf = "PASSED" ∨ out.statusOf = "FAILED" ∨ out.statusOf = "ABORTED" ∨
        out.statusOf = "UNKNOWN" ∨ out.statusOf = "SKIPPED") ∧
    (∀ r c, playwright_main det npmOk pwflag stdout platform pshots logEx = (some r, c) →
        r.status = "PASSED" ∨ r.status = "FAILED" ∨ r.status = "ABORTED" ∨
        r.status = "UNKNOWN" ∨ r.status = "SKIPPED") := by
  constructor
  · intro out c h
    obtain ⟨ra, -, -, hcase⟩ := android_main_some h
    rcases hcase with ⟨-, hout⟩ | ⟨-, r, hg, hout⟩
    · subst hout
      right; right; left; rfl
    · subst hout
      obtain ⟨dur, st, -, -, -, hr⟩ := generate_json_report_some hg
      subst hr
      show (assembleAReport genId ra logp env shots dur st (searchTestsRun so.data)).status = _ ∨ _
      cases hsm : searchTestsRun so.data with
      | none =>
          right; right; right; left
          simp [AndroidOut.statusOf, assembleAReport, hsm]
      | some nm =>
          cases nm with
          | mk n m =>
              by_cases hm : (m : Int) > 0
              · right; left
                simp [AndroidOut.statusOf, assembleAReport, hsm, hm]
              · left
                simp [AndroidOut.statusOf, assembleAReport, hsm, hm]
  · intro r c h
    obtain ⟨jd, d, r0, -, -, -, htr, hr, -⟩ := playwright_main_some h
    subst hr
    have hst := (playwright_finalize_fields pwflag r0 pshots logEx).2.2.2.1
    cases pwflag with
    | true =>
        right; right; left
        rw [hst]
        simp
    | false =>
        have hne : ¬(false = true) := by decide
        rw [if_neg hne] at hst
        rw [hst]
        rcases (transform_fields htr).2.2.2.2.2.2 with h1 | h1 | h1
        · right; left; exact h1
        · right; right; right; right; exact h1
        · left; exact h1

theorem C7_status_enum_witness :
    (exAbortedOut.statusOf = "PASSED" ∨ exAbortedOut.statusOf = "FAILED" ∨
     exAbortedOut.statusOf = "ABORTED" ∨ exAbortedOut.statusOf = "UNKNOWN" ∨
     exAbortedOut.statusOf = "SKIPPED") ∧
    (exPWAbortReport.status = "PASSED" ∨ exPWAbortReport.status = "FAILED" ∨
     exPWAbortReport.status = "ABORTED" ∨ exPWAbortReport.status = "UNKNOWN" ∨
     exPWAbortReport.status = "SKIPPED") := by
  refine ⟨?_, ?_⟩
  · exact (C7_status_enum (.ok exArgs) true 2026 "g" "so" "vo" exEnv [] "log"
      (some exDetails) true true (some (some exData)) "linux" [] true).1 exAbortedOut 0 (by decide)
  · exact (C7_status_enum (.ok exArgs) true 2026 "g" "so" "vo" exEnv [] "log"
      (some exDetails) true true (some (some exData)) "linux" [] true).2 exPWAbortReport 0 (by rfl)

/-- C8: a `finished` event whose test identifier has no prior `started`
event is ignored by the verbose-log scan: the scan state is left unchanged
(no TestCaseRecord is produced, no duration is computed) and the step
returns normally rather than failing. -/
theorem C8_unmatched_finished
    (year : Nat) (ft : List (List Char × List Char)) (s : ScanState)
    (line tsStr nm : List Char) (t : Int)
    (hm : log_pattern_match line = some (tsStr, EvKind.finished, nm))
    (hts : parseTs year tsStr = some t)
    (hmap : mapGet s.test_map nm = none) :
    scanStep year ft s line = some s := by
  unfold scanStep
  rw [hm]
  dsimp only
  rw [hts]
  dsimp only
  rw [hmap]

theorem C8_unmatched_finished_witness :
    scanStep 2026 [] initScanState
      "01-02 03:04:05.678 I TestRunner: finished: TC09_x(com".data = some initScanState :=
  C8_unmatched_finished 2026 [] initScanState
    "01-02 03:04:05.678 I TestRunner: finished: TC09_x(com".data
    "01-02 03:04:05.678".data "TC09_x".data 97445678 (by decide) (by decide) (by decide)

/-- C10: the Structured-Report Adapter always sets `summary.failed_critical`
to the same value as `summary.failed` (`stats.unexpected + stats.flaky`),
never to a count of CRITICAL test cases, and the post-transform main flow
preserves this. -/
theorem C10_failed_critical
    (d : PWData) (det : PDetails) (platform : String)
    (pdet : Option PDetails) (npmOk pwflag : Bool) (stdout : Option (Option PWData))
    (pshots : List String) (logEx : Bool) :
    (∀ r, transform_playwright_result d det platform = some r →
        r.summary.failed_critical = r.summary.failed ∧
        r.summary.failed = d.stats.unexpected.getD 0 + d.stats.flaky.getD 0) ∧
    (∀ r c, playwright_main pdet npmOk pwflag stdout platform pshots logEx = (some r, c) →
        r.summary.failed_critical = r.summary.failed) := by
  constructor
  · intro r h
    obtain ⟨-, -, -, hf, -, hfc, -⟩ := transform_fields h
    exact ⟨by rw [hf, hfc], hf⟩
  · intro r c h
    obtain ⟨jd, dd, r0, -, -, -, htr, hr, -⟩ := playwright_main_some h
    subst hr
    rw [(playwright_finalize_fields pwflag r0 pshots logEx).1]
    obtain ⟨-, -, -, hf, -, hfc, -⟩ := transform_fields htr
    rw [hf, hfc]

theorem C10_failed_critical_witness :
    exPWAbortReport.summary.failed_critical = exPWAbortReport.summary.failed := by
  exact (C10_failed_critical exData exDetails "linux"
    (some exDetails) true true (some (some exData)) [] true).2 exPWAbortReport 0 (by rfl)

def exVerboseTs : String := "01-02 03:04:05.678 boot complete"

/-- C2 counterexample: on a verbose log containing a timestamp match, the
report is produced with `started_at` and `ended_at` still null — they are
never set to the first/last timestamps. -/
theorem C2_counterexample :
    findTimestamps exVerboseTs.data ≠ [] ∧
    (generate_json_report 2026 "g" "OK (2 tests)" exVerboseTs exEnv [] exArgs "log").map
      (fun r => (r.started_at, r.ended_at)) = some (none, none) := by
  exact ⟨by decide, by rfl⟩

/-- C2 (amended): `generate_json_report` derives only `duration_seconds`
from the timestamp matches (difference of last and first, seconds rounded
to 3 decimals, 0 when no timestamp matches); `started_at` and `ended_at`
remain null in every produced report. -/
theorem C2_timestamps_only_duration
    (year : Nat) (genId : String) (so vo : String) (env : EnvSnapshot)
    (shots : List String) (ra : RunnerArgs) (logp : String) (r : AReport)
    (h : generate_json_report year genId so vo env shots ra logp = some r) :
    r.started_at = none ∧ r.ended_at = none ∧
    (findTimestamps vo.data = [] → r.duration_seconds = 0) ∧
    (∀ t0 rest a b, findTimestamps vo.data = t0 :: rest →
        parseTs year t0 = some a → parseTs year ((t0 :: rest).getLastD t0) = some b →
        r.duration_seconds = round3Rat (((b - a : Int) : Rat) / 1000)) := by
  obtain ⟨dur, st, hd, -, -, hr⟩ := generate_json_report_some h
  subst hr
  have hsa : ∀ sm, (assembleAReport genId ra logp env shots dur st sm).started_at = none := by
    intro sm
    cases sm with
    | none => rfl
    | some nm => cases nm; rfl
  have hea : ∀ sm, (assembleAReport genId ra logp env shots dur st sm).ended_at = none := by
    intro sm
    cases sm with
    | none => rfl
    | some nm => cases nm; rfl
  have hdu : ∀ sm, (assembleAReport genId ra logp env shots dur st sm).duration_seconds = dur := by
    intro sm
    cases sm with
    | none => rfl
    | some nm => cases nm; rfl
  refine ⟨hsa _, hea _, ?_, ?_⟩
  · intro hnil
    rw [hdu _]
    unfold verboseDuration at hd
    rw [hnil] at hd
    injection hd with hd
    exact hd.symm
  · intro t0 rest a b hcons hpa hpb
    rw [hdu _]
    unfold verboseDuration at hd
    rw [hcons] at hd
    dsimp only at hd
    rw [hpa, hpb] at hd
    injection hd with hd
    exact hd.symm

def emptyAReport : AReport :=
  { job_id := "", status := "", project := none,
    details := { job_id := none, project := none, suite_name := none },
    messages := [], logs := "", started_at := none, ended_at := none, duration_seconds := 0,
    passrate := "", progress := "", videos := [], screenshots := [], suite_key := "",
    test_cases := [], summary := zeroSummary,
    environment_snapshot := { device_type := "", os := "" } }

def exAReport : AReport :=
  match generate_json_report 2026 "g" exSummary exVerbose exEnv [] exArgs "log" with
  | some r => r
  | none => emptyAReport

theorem C2_timestamps_only_duration_witness :
    exAReport.started_at = none ∧ exAReport.ended_at = none ∧
    exAReport.duration_seconds = round3Rat (((97447000 - 97445678 : Int) : Rat) / 1000) := by
  have h := C2_timestamps_only_duration 2026 "g" exSummary exVerbose exEnv [] exArgs "log"
    exAReport (by rfl)
  refine ⟨h.1, h.2.1, ?_⟩
  exact h.2.2.2 "01-02 03:04:05.678".data
    ["01-02 03:04:06.678".data, "01-02 03:04:06.900".data, "01-02 03:04:07.000".data]
    97445678 97447000 (by decide) (by decide) (by decide)

/-- C9 counterexample: the Structured-Report Adapter hardcodes `job_id` to
the empty string even when the caller-supplied metadata carries one. -/
theorem C9_counterexample :
    exDetails.job_id = some "J1" ∧
    (transform_playwright_result exData exDetails "linux").map (fun r => r.job_id) = some "" ∧
    ("" : String) ≠ "J1" := by
  exact ⟨rfl, by rfl, by decide⟩

lemma uuid4_string_ne_empty (bits : Nat) : uuid4_string bits ≠ "" := by
  unfold uuid4_string
  intro h
  have h2 := congrArg String.data h
  simp at h2

/-- C9 (amended): the Instrumentation-Log Adapter sets `job_id` to the
caller-supplied value when present and otherwise to the generated
`str(uuid.uuid4())`, which is never empty — on both its normal and abort
paths; the Structured-Report Adapter instead always emits the empty string
as `job_id`. -/
theorem C9_job_id
    (bits : Nat) (ra : RunnerArgs) (year : Nat) (so vo : String) (env : EnvSnapshot)
    (shots : List String) (logp : String) (d : PWData) (det : PDetails) (platform : String) :
    ((generate_aborted_report (uuid4_string bits) ra logp env shots).job_id =
        ra.job_id.getD (uuid4_string bits)) ∧
    (∀ r, generate_json_report year (uuid4_string bits) so vo env shots ra logp = some r →
        r.job_id = ra.job_id.getD (uuid4_string bits)) ∧
    (ra.job_id = none → ra.job_id.getD (uuid4_string bits) ≠ "") ∧
    (∀ j, ra.job_id = some j → ra.job_id.getD (uuid4_string bits) = j) ∧
    (∀ r, transform_playwright_result d det platform = some r → r.job_id = "") := by
  refine ⟨rfl, ?_, ?_, ?_, ?_⟩
  · intro r h
    obtain ⟨dur, st, -, -, -, hr⟩ := generate_json_report_some h
    subst hr
    cases hsm : searchTestsRun so.data with
    | none => rfl
    | some nm => cases nm; rfl
  · intro hn
    rw [hn]
    exact uuid4_string_ne_empty bits
  · intro j hj
    rw [hj]
    rfl
  · intro r h
    exact (transform_fields h).1

def exPWReport : PReport :=
  match transform_playwright_result exData exDetails "linux" with
  | some r => r
  | none => emptyPReport

def exArgsNoJob : RunnerArgs := { job_id := none, project := none, suite_name := none }

theorem C9_job_id_witness :
    (generate_aborted_report (uuid4_string 5) exArgsNoJob "log" exEnv []).job_id =
      uuid4_string 5 ∧
    uuid4_string 5 ≠ "" ∧
    (generate_aborted_report (uuid4_string 5) exArgs "log" exEnv []).job_id = "job-7" ∧
    exPWReport.job_id = "" := by
  have h1 := C9_job_id 5 exArgsNoJob 2026 "so" "vo" exEnv [] "log" exData exDetails "linux"
  have h2 := C9_job_id 5 exArgs 2026 "so" "vo" exEnv [] "log" exData exDetails "linux"
  exact ⟨h1.1, h1.2.2.1 rfl, h2.1.trans (h2.2.2.2.1 "job-7" rfl),
    h1.2.2.2.2 exPWReport (by rfl)⟩

/-- The id/name/status sequence the Structured-Report Adapter emits for a
flattened spec list when the `enumerate` counter starts at `i`: spec `j`
(0-based) gets id `TC(i+j+1)`. -/
def expectedCases (i : Nat) : List PWSpec → List (String × String × String)
  | [] => []
  | sp :: rest =>
      (pwId (i + 1), pwName sp.title, get_test_status sp) :: expectedCases (i + 1) rest

lemma expectedCases_get? :
    ∀ (specs : List PWSpec) (i j : Nat),
      (expectedCases i specs).get? j =
        (specs.get? j).map (fun sp => (pwId (i + j + 1), pwName sp.title, get_test_status sp)) := by
  intro specs
  induction specs with
  | nil => intro i j; simp [expectedCases]
  | cons sp rest ih =>
      intro i j
      cases j with
      | zero => simp [expectedCases]
      | succ j =>
          simp only [expectedCases, List.get?_cons_succ]
          rw [ih (i + 1) j, show i + 1 + j = i + (j + 1) from by omega]

lemma mk_test_case_fields {i : Nat} {sp : PWSpec} {tc : PTestCase} {msg : Option String}
    (h : mk_test_case i sp = some (tc, msg)) :
    tc.id = pwId (i + 1) ∧ tc.name = pwName sp.title ∧ tc.status = get_test_status sp := by
  unfold mk_test_case at h
  dsimp only at h
  split at h
  · split at h
    · simp at h
    · split at h
      · simp only [Option.some.injEq, Prod.mk.injEq] at h
        obtain ⟨h1, -⟩ := h
        subst h1
        exact ⟨rfl, rfl, rfl⟩
      · split at h
        · simp at h
        · simp only [Option.some.injEq, Prod.mk.injEq] at h
          obtain ⟨h1, -⟩ := h
          subst h1
          exact ⟨rfl, rfl, rfl⟩
  · simp only [Option.some.injEq, Prod.mk.injEq] at h
    obtain ⟨h1, -⟩ := h
    subst h1
    exact ⟨rfl, rfl, rfl⟩

lemma build_cases_spec :
    ∀ (specs : List PWSpec) (i : Nat) (tcs : List PTestCase) (msgs : List String),
      build_cases i specs = some (tcs, msgs) →
      tcs.map (fun tc => (tc.id, tc.name, tc.status)) = expectedCases i specs := by
  intro specs
  induction specs with
  | nil =>
      intro i tcs msgs h
      simp [build_cases] at h
      obtain ⟨h1, -⟩ := h
      subst h1
      simp [expectedCases]
  | cons sp rest ih =>
      intro i tcs msgs h
      rw [build_cases] at h
      cases hmk : mk_test_case i sp with
      | none => rw [hmk] at h; simp at h
      | some p =>
          rw [hmk] at h
          cases p with
          | mk tc msg =>
              dsimp only at h
              cases hb : build_cases (i + 1) rest with
              | none => rw [hb] at h; simp at h
              | some q =>
                  rw [hb] at h
                  cases q with
                  | mk tcs2 msgs2 =>
                      simp only [Option.some.injEq, Prod.mk.injEq] at h
                      obtain ⟨h1, -⟩ := h
                      subst h1
                      obtain ⟨hid, hname, hstatus⟩ := mk_test_case_fields hmk
                      simp [expectedCases, hid, hname, hstatus, ih (i + 1) tcs2 msgs2 hb]

lemma build_all_spec :
    ∀ (suites : List PWSuite) (cs : List PTestCase) (msgs : List String),
      build_all suites = some (cs, msgs) →
      cs.map (fun tc => (tc.id, tc.name, tc.status)) =
        (suites.map (fun s => expectedCases 0 (find_specs s))).join := by
  intro suites
  induction suites with
  | nil =>
      intro cs msgs h
      simp [build_all] at h
      obtain ⟨h1, -⟩ := h
      subst h1
      simp
  | cons s rest ih =>
      intro cs msgs h
      rw [build_all] at h
      cases hb : build_cases 0 (find_specs s) with
      | none => rw [hb] at h; simp at h
      | some p =>
          rw [hb] at h
          cases p with
          | mk a m1 =>
              dsimp only at h
              cases hba : build_all rest with
              | none => rw [hba] at h; simp at h
              | some q =>
                  rw [hba] at h
                  cases q with
                  | mk b m2 =>
                      simp only [Option.some.injEq, Prod.mk.injEq] at h
                      obtain ⟨h1, -⟩ := h
                      subst h1
                      simp [build_cases_spec _ _ _ _ hb, ih _ _ hba]

lemma transform_test_cases {d : PWData} {det : PDetails} {platform : String} {r : PReport}
    (h : transform_playwright_result d det platform = some r) :
    ∃ msgs, build_all d.suites = some (r.test_cases, msgs) := by
  unfold transform_playwright_result at h
  cases hb : build_all d.suites with
  | none => rw [hb] at h; simp at h
  | some p =>
      rw [hb] at h
      cases p with
      | mk cs msgs =>
          simp only at h
          injection h with h
          have hcs : r.test_cases = cs := by rw [← h]
          refine ⟨msgs, ?_⟩
          rw [hcs]

def exDataTwoSuites : PWData :=
  { stats := exStats, suites := [PWSuite.mk [exSpecPassed] [], PWSuite.mk [exSpecFailed] []] }

/-- C5 counterexample: with two top-level suites of one spec each, both
records get id `TC01` — the ids are not sequential across all specs of the
report, as the claim demands (`TC01, TC02`). -/
theorem C5_counterexample :
    (transform_playwright_result exDataTwoSuites exDetails "linux").map
      (fun r => r.test_cases.map (fun tc => tc.id)) = some ["TC01", "TC01"] ∧
    (["TC01", "TC01"] : List String) ≠ ["TC01", "TC02"] := by
  exact ⟨by rfl, by decide⟩

/-- C5 (amended): the Structured-Report Adapter emits one record per spec in
depth-first, left-to-right traversal order of the suite tree (a suite's own
specs before those of its sub-suites), and assigns sequential ids
`TC01, TC02, ...` in that order — but the numbering restarts at `TC01` for
each top-level suite rather than running across the whole report.  The
second conjunct pins the numbering: position `j` (0-based) of a flattened
spec list enumerated from `i` carries id `TC(i+j+1)`. -/
theorem C5_traversal_and_ids
    (d : PWData) (det : PDetails) (platform : String) (r : PReport)
    (h : transform_playwright_result d det platform = some r) :
    r.test_cases.map (fun tc => (tc.id, tc.name, tc.status)) =
      (d.suites.map (fun s => expectedCases 0 (find_specs s))).join ∧
    (∀ (specs : List PWSpec) (i j : Nat),
        (expectedCases i specs).get? j =
          (specs.get? j).map (fun sp => (pwId (i + j + 1), pwName sp.title, get_test_status sp))) := by
  obtain ⟨msgs, hb⟩ := transform_test_cases h
  exact ⟨build_all_spec _ _ _ hb, expectedCases_get?⟩

def exPWTwoSuites : PReport :=
  match transform_playwright_result exDataTwoSuites exDetails "linux" with
  | some r => r
  | none => emptyPReport

theorem C5_traversal_and_ids_witness :
    exPWTwoSuites.test_cases.map (fun tc => (tc.id, tc.name, tc.status)) =
      (exDataTwoSuites.suites.map (fun s => expectedCases 0 (find_specs s))).join := by
  exact (C5_traversal_and_ids exDataTwoSuites exDetails "linux" exPWTwoSuites (by rfl)).1

/-! ## The FAILED/CRITICAL-implies-logs invariant (C4) -/

def AndroidOut.testCasesOf : AndroidOut → List ScanTC
  | .aborted r => r.test_cases
  | .normal r => r.test_cases

lemma assembleAReport_test_cases (genId : String) (ra : RunnerArgs) (logp : String)
    (env : EnvSnapshot) (shots : List String) (dur : Rat) (st : ScanState)
    (sm : Option (Nat × Nat)) :
    (assembleAReport genId ra logp env shots dur st sm).test_cases = st.test_cases := by
  cases sm with
  | none => rfl
  | some nm => cases nm; rfl

lemma pyFirstLine_ne_nil {cs fl : List Char} (h : pyFirstLine cs = some fl) : cs ≠ [] := by
  intro hc
  subst hc
  rw [show pyFirstLine [] = none from rfl] at h
  cases h

lemma stringMk_ne_empty {l : List Char} (h : l ≠ []) : String.mk l ≠ "" := by
  intro he
  apply h
  have h2 := congrArg String.data he
  simpa using h2

lemma string_append_newline_ne_empty (a b : String) : a ++ "\n" ++ b ≠ "" := by
  intro h
  have h2 := congrArg String.length h
  simp [String.length_append] at h2
  exact absurd h2.1.2 (by decide)

/-- A step invariant carried through an `Option`-monadic fold. -/
lemma foldlM_option_invariant {α β : Type} (P : β → Prop) (f : β → α → Option β) :
    ∀ (l : List α) (s0 s1 : β), l.foldlM f s0 = some s1 → P s0 →
      (∀ s a s2, P s → f s a = some s2 → P s2) → P s1 := by
  intro l
  induction l with
  | nil =>
      intro s0 s1 h hP _
      simp [List.foldlM_nil] at h
      subst h
      exact hP
  | cons a l ih =>
      intro s0 s1 h hP hstep
      rw [List.foldlM_cons] at h
      cases hf : f s0 a with
      | none => rw [hf] at h; simp at h
      | some s2 =>
          rw [hf] at h
          exact ih s2 s1 h (hstep s0 a s2 hP hf) hstep

/-- One scan step preserves: every FAILED or CRITICAL record has
non-empty logs. -/
lemma scanStep_preserves_logs {year : Nat} {ft : List (List Char × List Char)}
    {s s2 : ScanState} {line : List Char}
    (h : scanStep year ft s line = some s2)
    (hP : ∀ tc ∈ s.test_cases, (tc.status = "FAILED" ∨ tc.status = "CRITICAL") → tc.logs ≠ "") :
    ∀ tc ∈ s2.test_cases, (tc.status = "FAILED" ∨ tc.status = "CRITICAL") → tc.logs ≠ "" := by
  unfold scanStep at h
  split at h
  · injection h with h
    subst h
    exact hP
  · split at h
    · simp at h
    · split at h
      · -- started event
        split at h
        · -- not in the failure map: a PASSED record is appended
          injection h with h
          subst h
          intro tc htc hst
          simp only [List.mem_append, List.mem_singleton] at htc
          rcases htc with htc | htc
          · exact hP tc htc hst
          · subst htc
            dsimp only at hst
            rcases hst with hst | hst <;> exact absurd hst (by decide)
        · -- in the failure map: a FAILED/CRITICAL record with the error text
          rename_i error_log
          split at h
          · simp at h
          · rename_i fl hfl
            injection h with h
            subst h
            intro tc htc hst
            simp only [List.mem_append, List.mem_singleton] at htc
            rcases htc with htc | htc
            · exact hP tc htc hst
            · subst htc
              exact stringMk_ne_empty (pyFirstLine_ne_nil hfl)
      · -- finished event
        split at h
        · injection h with h
          subst h
          exact hP
        · rename_i idx hidx
          split at h
          · simp at h
          · rename_i tc0 hget
            split at h
            · injection h with h
              subst h
              exact hP
            · injection h with h
              subst h
              intro tc htc hst
              rcases List.mem_or_eq_of_mem_set htc with htc | htc
              · exact hP tc htc hst
              · subst htc
                exact hP tc0 (List.get?_mem hget) hst

def exDataFallback : PWData := { stats := exStats, suites := [PWSuite.mk [exSpecFallback] []] }

/-- C4 counterexample: the Structured-Report Adapter emits a record with
status FAILED and empty `logs` for a spec whose first test has no result
entries — `get_test_status` falls through to FAILED, but the error-log
extraction is skipped because `results` is empty. -/
theorem C4_counterexample :
    (transform_playwright_result exDataFallback exDetails "linux").map
      (fun r => r.test_cases.map (fun tc => (tc.status, tc.logs))) =
      some [("FAILED", "")] := by rfl

lemma get_test_status_cases (sp : PWSpec) :
    get_test_status sp = "SKIPPED" ∨ get_test_status sp = "PASSED" ∨
    get_test_status sp = "FAILED" := by
  unfold get_test_status
  split
  · exact Or.inl rfl
  · split
    · exact Or.inl rfl
    · split
      · exact Or.inr (Or.inr rfl)
      · split
        · exact Or.inr (Or.inl rfl)
        · split
          · exact Or.inl rfl
          · exact Or.inr (Or.inr rfl)

/-- C4 (amended): in every report of the Instrumentation-Log Adapter, every
record with status FAILED or CRITICAL has non-empty `logs`.  In the
Structured-Report Adapter, a FAILED record has non-empty `logs` whenever the
spec's first test has at least one result entry; a FAILED record produced
through the no-results fallback has empty `logs`; CRITICAL records never
occur there. -/
theorem C4_failed_logs
    (arg : ArgParse) (flag : Bool) (year : Nat) (genId : String) (so vo : String)
    (env : EnvSnapshot) (shots : List String) (logp : String) :
    (∀ out c, android_main arg flag year genId so vo env shots logp = (some out, c) →
        ∀ tc ∈ out.testCasesOf, (tc.status = "FAILED" ∨ tc.status = "CRITICAL") →
          tc.logs ≠ "") ∧
    (∀ i sp tc msg t0 r0 rst, mk_test_case i sp = some (tc, msg) →
        sp.tests.head? = some t0 → t0.results = r0 :: rst →
        tc.status = "FAILED" → tc.logs ≠ "") ∧
    (∀ i sp tc msg t0, mk_test_case i sp = some (tc, msg) →
        sp.tests.head? = some t0 → t0.results = [] →
        tc.status = "FAILED" → tc.logs = "") ∧
    (∀ i sp tc msg, mk_test_case i sp = some (tc, msg) → tc.status ≠ "CRITICAL") := by
  refine ⟨?_, ?_, ?_, ?_⟩
  · intro out c h tc htc hst
    obtain ⟨ra, -, -, hcase⟩ := android_main_some h
    rcases hcase with ⟨-, hout⟩ | ⟨-, r, hg, hout⟩
    · subst hout
      simp [AndroidOut.testCasesOf, generate_aborted_report] at htc
    · subst hout
      obtain ⟨dur, st, -, hscan, -, hr⟩ := generate_json_report_some hg
      subst hr
      simp only [AndroidOut.testCasesOf] at htc
      rw [assembleAReport_test_cases] at htc
      unfold runScan at hscan
      have hinv := foldlM_option_invariant
        (fun q => ∀ tc2 ∈ q.test_cases,
          (tc2.status = "FAILED" ∨ tc2.status = "CRITICAL") → tc2.logs ≠ "")
        (scanStep year (mkFailedTests so.data))
        (pySplitlines vo.data) initScanState st hscan (by simp [initScanState])
        (fun q a q2 hPq hq => scanStep_preserves_logs hq hPq)
      exact hinv tc htc hst
  · intro i sp tc msg t0 r0 rst hmk hhead hres hfst
    have hgt : get_test_status sp = "FAILED" :=
      ((mk_test_case_fields hmk).2.2).symm.trans hfst
    cases hts : sp.tests with
    | nil => rw [hts] at hhead; simp at hhead
    | cons t1 tl =>
        rw [hts] at hhead
        simp at hhead
        subst hhead
        unfold mk_test_case at hmk
        dsimp only at hmk
        split at hmk
        · rw [hts] at hmk
          dsimp only at hmk
          rw [hres] at hmk
          dsimp only at hmk
          split at hmk
          · exact absurd hmk (by simp)
          · simp only [Option.some.injEq, Prod.mk.injEq] at hmk
            obtain ⟨h1, -⟩ := hmk
            subst h1
            exact string_append_newline_ne_empty _ _
        · rename_i hcond
          rw [hgt] at hcond
          simp at hcond
  · intro i sp tc msg t0 hmk hhead hres hfst
    have hgt : get_test_status sp = "FAILED" :=
      ((mk_test_case_fields hmk).2.2).symm.trans hfst
    cases hts : sp.tests with
    | nil => rw [hts] at hhead; simp at hhead
    | cons t1 tl =>
        rw [hts] at hhead
        simp at hhead
        subst hhead
        unfold mk_test_case at hmk
        dsimp only at hmk
        split at hmk
        · rw [hts] at hmk
          dsimp only at hmk
          rw [hres] at hmk
          dsimp only at hmk
          simp only [Option.some.injEq, Prod.mk.injEq] at hmk
          obtain ⟨h1, -⟩ := hmk
          subst h1
          rfl
        · rename_i hcond
          rw [hgt] at hcond
          simp at hcond
  · intro i sp tc msg hmk
    have hst := (mk_test_case_fields hmk).2.2
    rcases get_test_status_cases sp with hc | hc | hc <;>
      (rw [hst, hc]; decide)

def exFailedTC : ScanTC :=
  { id := "TC01", name := "Wifi On", status := "FAILED",
    logs := "java.lang.AssertionError: boom", duration_ms := 1000, start_time := none }

def exPWFailedTC : PTestCase :=
  match mk_test_case 0 exSpecFailed with
  | some (tc, _) => tc
  | none => { id := "", name := "", status := "", logs := "" }

theorem C4_failed_logs_witness :
    exFailedTC.logs ≠ "" ∧ exPWFailedTC.logs ≠ "" := by
  refine ⟨?_, ?_⟩
  · exact (C4_failed_logs (.ok exArgs) false 2026 "g" exSummary exVerbose exEnv [] "log").1
      (AndroidOut.normal exAReport) 0 (by rfl) exFailedTC (by decide) (Or.inl rfl)
  · exact (C4_failed_logs (.ok exArgs) false 2026 "g" exSummary exVerbose exEnv [] "log").2.1
      0 exSpecFailed exPWFailedTC (some "Test 'ff' failed: boom happened")
      { status := some "unexpected",
        results := [{ status := some "failed",
                      error := some { message := some "boom happened",
                                      stack := some "at line 3" } }] }
      { status := some "failed",
        error := some { message := some "boom happened", stack := some "at line 3" } }
      [] (by rfl) (by rfl) (by rfl) (by rfl)

end TAS
